import Mathlib

set_option autoImplicit false

namespace CasaImage

/-!
Shallow embedding of spectral_cube/io/casa_image.py: the lazy array
adapter ArraylikeCasaData (construction, cached metadata, element
access), the begin/end/stride selection translation, the beam metadata
normalization, and the load_casa_image assembly pipeline.  External
collaborators (the CASA image tool, the cube classes and cube_utils
helpers that are not part of this excerpt) are modelled from the
interface contract the spec gives for them.
-/

/-- A Python indexing entry after normalization to full length: either a
plain integer index or a slice with optional start, stop and step
fields. -/
inductive PySel where
  | idx (i : Int)
  | slc (start stop step : Option Int)
  deriving DecidableEq

/-- Whether the entry is a slice.  In the source this is the test
isinstance(slc, slice) for the view, and the hasattr tests on slices for
the blc/trc/inc translation (integers have none of the attributes,
slices have all three, so the tests agree). -/
def PySel.isSlice : PySel → Bool
  | .idx _ => false
  | .slc _ _ _ => true

/-- blc entry, from: (slc.start or -1) if hasattr(slc, ...) else slc.
Python truthiness: a missing start and a zero start both become the
sentinel -1; an integer entry is passed through. -/
def blcOf : PySel → Int
  | .idx i => i
  | .slc st _ _ =>
      match st with
      | none => -1
      | some s => if s = 0 then -1 else s

/-- trc entry, from: (slc.stop-1 if slc.stop is not None else -1) for a
slice, the integer itself otherwise.  The exclusive stop is converted to
an inclusive end. -/
def trcOf : PySel → Int
  | .idx i => i
  | .slc _ sp _ =>
      match sp with
      | none => -1
      | some t => t - 1

/-- inc entry, from: (slc.step or 1) for a slice and 1 for an integer.
Python truthiness: a missing step and a zero step both become 1. -/
def incOf : PySel → Int
  | .idx _ => 1
  | .slc _ _ st =>
      match st with
      | none => 1
      | some s => if s = 0 then 1 else s

/-- Model of a multidimensional array: a shape together with an element
lookup by full index list.  Stands for the numpy arrays produced by the
external tool and returned by the adapter. -/
structure MArr where
  shape : List Nat
  val : List Nat → Int

/-- Modelled from the spec: effective begin index of the external tool
for one axis, with -1 meaning the start of the axis. -/
def chunkStart (b : Int) : Nat :=
  if b = -1 then 0 else b.toNat

/-- Modelled from the spec: effective inclusive end index of the
external tool for one axis of extent n, with -1 meaning the end of the
axis. -/
def chunkStop (n : Nat) (t : Int) : Int :=
  if t = -1 then (n : Int) - 1 else t

/-- Modelled from the spec: number of points selected on one axis of
extent n by a begin/end/stride triple in the external vocabulary
(inclusive end, -1 wildcards). -/
def chunkLen (n : Nat) (b t s : Int) : Nat :=
  if 0 < s ∧ (chunkStart b : Int) ≤ chunkStop n t then
    (chunkStop n t - chunkStart b).toNat / s.toNat + 1
  else 0

/-- Shape of the sub-array returned by the external get-region call. -/
def chunkShape : List Nat → List Int → List Int → List Int → List Nat
  | n :: ns, b :: bs, t :: ts, s :: ss => chunkLen n b t s :: chunkShape ns bs ts ss
  | _, _, _, _ => []

/-- Coordinates in the backing array of an index into the sub-array. -/
def chunkCoords : List Nat → List Int → List Int → List Nat
  | i :: is, b :: bs, s :: ss => (chunkStart b + i * s.toNat) :: chunkCoords is bs ss
  | _, _, _ => []

/-- Modelled from the spec: the external tool get-region operation
(ia.getchunk in the source), reading a rectangular sub-region described
by begin/end/stride triples in the external tool axis order. -/
def getchunk (a : MArr) (blc trc inc : List Int) : MArr :=
  MArr.mk (chunkShape a.shape blc trc inc)
    (fun idx => a.val (chunkCoords idx blc inc))

/-- Axes kept by the view data[tuple(new_view)] from the source: each
slice entry keeps its axis, each integer entry is indexed at 0 and
dropped. -/
def keepSlices : List Nat → List PySel → List Nat
  | n :: ns, s :: ss =>
      if s.isSlice then n :: keepSlices ns ss else keepSlices ns ss
  | _, _ => []

/-- Source-array index of a view index: view indices feed the kept
(slice) axes in order, dropped (integer) axes are read at 0. -/
def expandIdx : List PySel → List Nat → List Nat
  | s :: ss, idx =>
      if s.isSlice then idx.headD 0 :: expandIdx ss idx.tail
      else 0 :: expandIdx ss idx
  | [], _ => []

/-- The view data[tuple(new_view)] from the source, with new_view built
as slice(None) for slice entries and 0 for integer entries. -/
def dropIdx (a : MArr) (sel : List PySel) : MArr :=
  MArr.mk (keepSlices a.shape sel) (fun idx => a.val (expandIdx sel idx))

/-- numpy transpose with no arguments: reverse the axis order. -/
def transposeArr (a : MArr) : MArr :=
  MArr.mk a.shape.reverse (fun idx => a.val idx.reverse)

/-- Core of ArraylikeCasaData.getitem: the selection, already normalized
to one entry per dimension in conventional axis order, is reversed into
the external tool order, translated to blc/trc/inc lists, fetched with
getchunk, integer axes are dropped, and the result is transposed back.
The argument casaArr is the backing array in the external tool axis
order. -/
def getitemData (casaArr : MArr) (sel : List PySel) : MArr :=
  let value := sel.reverse
  let blc := value.map blcOf
  let trc := value.map trcOf
  let inc := value.map incOf
  transposeArr (dropIdx (getchunk casaArr blc trc inc) value)

/-- Expected result shape in conventional axis order: slice entries each
keep one axis with the selected extent, integer entries are dropped. -/
def selShape : List Nat → List PySel → List Nat
  | n :: ns, s :: ss =>
      if s.isSlice then
        chunkLen n (blcOf s) (trcOf s) (incOf s) :: selShape ns ss
      else selShape ns ss
  | _, _ => []

/-- Python exception values relevant to this module. -/
inductive PyErr where
  | ioError (msg : String)
  | assertionError (msg : String)
  | notImplementedError
  | valueError (msg : String)
  | keyError
  | otherError (msg : String)
  deriving DecidableEq

/-- The needle list starts the haystack list. -/
def listHasPre : List Char → List Char → Bool
  | [], _ => true
  | _ :: _, [] => false
  | a :: as, b :: bs => a = b && listHasPre as bs

/-- The needle list occurs contiguously somewhere in the haystack
list. -/
def listHasSub (needle : List Char) : List Char → Bool
  | [] => listHasPre needle []
  | c :: rest => listHasPre needle (c :: rest) || listHasSub needle rest

/-- Python substring test: needle in haystack. -/
def pyIn (needle hay : String) : Bool :=
  listHasSub needle.data hay.data

/-- The marker the external tool puts in the assertion raised when the
path to open does not exist. -/
def cReqPathMsg : String := "must be of cReqPath type"

/-- The message of the file-not-found error raised by the source, which
embeds the file name and the original message. -/
def fileNotFoundMsg (filename msg : String) : String :=
  "File " ++ filename ++ " not found.  Error was: " ++ msg

/-- The open translation shared by the three open sites of the source:
an AssertionError whose text contains the cReqPath marker becomes an
IOError naming the file; any other open outcome is passed through
unchanged (non-assertion failures are not even caught). -/
def translateOpen (filename : String) (o : Option PyErr) : Option PyErr :=
  match o with
  | none => none
  | some (.assertionError m) =>
      if pyIn cReqPathMsg m then some (.ioError (fileNotFoundMsg filename m))
      else some (.assertionError m)
  | some e => some e

/-- Whether an open failure is the specific path-does-not-exist signal
of the external tool. -/
def isPathMissingSignal : PyErr → Bool
  | .assertionError m => pyIn cReqPathMsg m
  | _ => false

/-- A value with a physical unit, as produced by u.Quantity in the
source (the numeric value is modelled as an integer). -/
structure Quant where
  value : Int
  unit : String
  deriving DecidableEq

/-- One major/minor/position-angle beam triple. -/
structure BeamPoint where
  major : Quant
  minor : Quant
  positionangle : Quant
  deriving DecidableEq

/-- The record returned by the restoring-beam query of the external
tool: an optional scalar triple (the major/minor/positionangle keys), an
optional per-channel table (the beams key, one entry per channel, each a
list indexed by polarization), and the reported polarization and channel
counts. -/
structure BeamRecord where
  scalar : Option BeamPoint
  beams : Option (List (List BeamPoint))
  nStokes : Int
  nChannels : Int
  deriving DecidableEq

/-- A world coordinate system, reduced to its axis count and an identity
tag so that distinct coordinate systems can be told apart. -/
structure Wcs where
  naxis : Nat
  wid : Nat
  deriving DecidableEq

/-- One state of the external image service for a fixed path: the
outcome of open, the shape in the external tool axis order, the pixel
type, the pixel and validity-mask contents, the coordinate system, the
brightness unit and the beam record. -/
structure CasaService where
  openOutcome : Option PyErr
  casaShape : List Nat
  pixeltype : String
  pixels : List Nat → Int
  maskPixels : List Nat → Int
  wcs : Wcs
  brightnessunit : String
  beamRecord : BeamRecord

/-- Calls made to the external service, used to trace sessions. -/
inductive SvcOp where
  | openOp
  | shapeQ
  | pixeltypeQ
  | closeOp
  deriving DecidableEq

/-- The state of an ArraylikeCasaData object: constructor arguments plus
the cache dictionary of the cached property decorator (one optional slot
per property). -/
structure AdapterState where
  filename : String
  getmask : Bool
  shapeCache : Option (List Nat)
  ndimCache : Option Nat
  dtypeCache : Option String
  deriving DecidableEq

/-- Modelled from the spec: the cached property decorator of the utils
module (absent from this excerpt).  The shape property: on a cache miss
it queries the external tool shape and reverses it, on a hit it returns
the stored value and performs no service call. -/
def shapeProp (a : AdapterState) (cur : CasaService) :
    List Nat × AdapterState × List SvcOp :=
  match a.shapeCache with
  | some v => (v, a, [])
  | none =>
      let v := cur.casaShape.reverse
      (v, AdapterState.mk a.filename a.getmask (some v) a.ndimCache a.dtypeCache,
       [SvcOp.shapeQ])

/-- The ndim property: len(self.shape); reads the shape property (cached
or not) and performs no service call of its own. -/
def ndimProp (a : AdapterState) (cur : CasaService) :
    Nat × AdapterState × List SvcOp :=
  match a.ndimCache with
  | some v => (v, a, [])
  | none =>
      let r := shapeProp a cur
      (r.1.length,
       AdapterState.mk r.2.1.filename r.2.1.getmask r.2.1.shapeCache
         (some r.1.length) r.2.1.dtypeCache,
       r.2.2)

/-- The dtype property: queries the external tool pixel type on a cache
miss. -/
def dtypeProp (a : AdapterState) (cur : CasaService) :
    String × AdapterState × List SvcOp :=
  match a.dtypeCache with
  | some v => (v, a, [])
  | none =>
      (cur.pixeltype,
       AdapterState.mk a.filename a.getmask a.shapeCache a.ndimCache
         (some cur.pixeltype),
       [SvcOp.pixeltypeQ])

/-- ArraylikeCasaData construction: open the file (translating the
path-missing assertion), touch the shape, ndim and dtype properties so
they are computed and cached, and close.  Returns the final object state
and the trace of service calls. -/
def adapterInit (filename : String) (getmask : Bool) (s : CasaService) :
    Except PyErr (AdapterState × List SvcOp) :=
  match translateOpen filename s.openOutcome with
  | some e => .error e
  | none =>
      let a0 := AdapterState.mk filename getmask none none none
      let r1 := shapeProp a0 s
      let r2 := ndimProp r1.2.1 s
      let r3 := dtypeProp r2.2.1 s
      .ok (r3.2.1, SvcOp.openOp :: (r1.2.2 ++ r2.2.2 ++ r3.2.2 ++ [SvcOp.closeOp]))

/-- The backing array the adapter reads: pixel data, or the validity
mask when the getmask service option was given at construction. -/
def curCasaArr (s : CasaService) (getmask : Bool) : MArr :=
  MArr.mk s.casaShape (if getmask then s.maskPixels else s.pixels)

/-- ArraylikeCasaData element access including the per-call session:
open the file afresh (translating the path-missing assertion), fetch and
reshape via getitemData, close.  The selection is given already
normalized to one entry per dimension in conventional order. -/
def getitemFull (a : AdapterState) (cur : CasaService) (sel : List PySel) :
    Except PyErr MArr :=
  match translateOpen a.filename cur.openOutcome with
  | some e => .error e
  | none => .ok (getitemData (curCasaArr cur a.getmask) sel)

/-- The normalized beam information carried by the produced cube; the
variant also selects the cube class used by the source (SpectralCube
with a beam, VaryingResolutionSpectralCube with a beam list, or plain
SpectralCube). -/
inductive BeamInfo where
  | noBeam
  | scalarBeam (b : BeamPoint)
  | varyingBeams (bs : List BeamPoint)
  deriving DecidableEq

/-- The per-channel extraction at fixed polarization index 0, matching
the lookup of the *0 key in each channel entry (a missing key is a
KeyError). -/
def stokes0 (ch : List BeamPoint) : Option BeamPoint :=
  ch.head?

/-- Map an option-valued extraction over a list, failing if any entry
fails, as the list comprehensions of the source do. -/
def optMapList {α β : Type} (f : α → Option β) : List α → Option (List β)
  | [] => some []
  | a :: t =>
      match f a, optMapList f t with
      | some b, some bs => some (b :: bs)
      | _, _ => none

/-- Python bare assert carries no message. -/
def bareAssertMsg : String := ""

/-- The beam-record normalization of load_casa_image: a record carrying
the scalar keys yields a single scalar beam; otherwise a record carrying
a beams table is checked (at most one polarization, channel count equal
to the table length) and turned into the ordered per-channel sequence at
polarization index 0; otherwise no beam information (a warning in the
source). -/
def normalizeBeam (r : BeamRecord) : Except PyErr BeamInfo :=
  match r.scalar with
  | some b => .ok (.scalarBeam b)
  | none =>
      match r.beams with
      | some bdict =>
          if 1 < r.nStokes then .error .notImplementedError
          else if (bdict.length : Int) ≠ r.nChannels then
            .error (.assertionError bareAssertMsg)
          else
            match optMapList stokes0 bdict with
            | some bs => .ok (.varyingBeams bs)
            | none => .error .keyError
      | none => .ok .noBeam

/-- Modelled from the spec: the collaborator operations of cube_utils
(absent from this excerpt).  orient is the shared orientation step
mapping an array shape and a coordinate system to the oriented shape and
the sliced coordinate system; splitStokes splits a 4-axis shape along
the polarization axis into labeled component shapes and an updated
coordinate system.  Both are deterministic functions. -/
structure Assembler where
  orient : List Nat → Wcs → List Nat × Wcs
  splitStokes : List Nat → Wcs → List (String × List Nat) × Wcs

/-- Modelled from the spec: the coordinate-aware boolean mask class,
reduced to the attributes the assembly invariants speak about, its shape
and its coordinate system. -/
structure BooleanArrayMask where
  shape : List Nat
  wcs : Wcs
  deriving DecidableEq

/-- Modelled from the spec: the produced cube object, reduced to the
attributes the assembly invariants speak about. -/
structure SpectralCube where
  shape : List Nat
  wcs : Wcs
  mask : BooleanArrayMask
  meta : String × String
  beam : BeamInfo
  deriving DecidableEq

/-- Modelled from the spec: the multi-component container, a labeled
mapping from polarization component to cube. -/
structure StokesSpectralCube where
  components : List (String × SpectralCube)
  deriving DecidableEq

/-- Python dict lookup on the labeled component mapping. -/
def assocFind {β : Type} (k : String) : List (String × β) → Option β
  | [] => none
  | p :: t => if p.1 = k then some p.2 else assocFind k t

/-- Modelled from the spec: the shape of the container, that of its
components (taken from the first one). -/
def StokesSpectralCube.cshape (c : StokesSpectralCube) : Option (List Nat) :=
  c.components.head?.map (fun p => p.2.shape)

/-- Modelled from the spec: the coordinate system of the container, that
of its components (taken from the first one). -/
def StokesSpectralCube.cwcs (c : StokesSpectralCube) : Option Wcs :=
  c.components.head?.map (fun p => p.2.wcs)

/-- Label of the designated primary component. -/
def stokesI : String := "I"

/-- The outcome of a successful load: a single cube or a multi-component
container. -/
inductive LoadResult where
  | single (c : SpectralCube)
  | stokes (c : StokesSpectralCube)
  deriving DecidableEq

/-- Map an Except-valued step over a list, propagating the first
failure, as the component loop of the source does. -/
def exceptMapList {α β : Type} (f : α → Except PyErr β) :
    List α → Except PyErr (List β)
  | [] => .ok []
  | a :: t =>
      match f a, exceptMapList f t with
      | .ok b, .ok bs => .ok (b :: bs)
      | .error e, _ => .error e
      | .ok _, .error e => .error e

/-- One iteration of the component loop of the 4-axis branch: look up
the data and validity sub-arrays of the label, orient both with the
updated coordinate system, wrap the mask with the sliced coordinate
system of the data orientation, and build the component cube. -/
def mkComponent (A : Assembler) (dcomps vcomps : List (String × List Nat))
    (wcs2 : Wcs) (meta : String × String) (bi : BeamInfo) (label : String) :
    Except PyErr (String × SpectralCube) :=
  match assocFind label dcomps, assocFind label vcomps with
  | some dsh, some vsh =>
      let d := A.orient dsh wcs2
      let v := A.orient vsh wcs2
      .ok (label, SpectralCube.mk d.1 d.2 (BooleanArrayMask.mk v.1 d.2) meta bi)
  | _, _ => .error .keyError

/-- Message of the unsupported-axis-count error of load_casa_image. -/
def naxisErrMsg (n : Nat) : String :=
  "CASA image has " ++ toString n ++
    " dimensions, and therefore is not readable by spectral-cube."

/-- AttributeError stand-in for an absent primary component. -/
def noIMsg : String := "no Stokes I component"

/-- load_casa_image: open the file (translating the path-missing
assertion), build the lazy data and validity arrays (both of shape equal
to the reversed external shape), normalize the beam record, and branch
on the axis count of the coordinate system: 3 axes build one cube and
assert that its mask shape equals its shape; 4 axes split data and
validity along the polarization axis, build one cube per component,
bundle the container, and assert that the primary component has mask
shape equal to the container shape and mask coordinate system equal to
the container coordinate system; any other axis count is a ValueError.
The asserts are modelled as checks that fail with an AssertionError. -/
def load (A : Assembler) (s : CasaService) (filename : String) :
    Except PyErr LoadResult :=
  match translateOpen filename s.openOutcome with
  | some e => .error e
  | none =>
      match normalizeBeam s.beamRecord with
      | .error e => .error e
      | .ok bi =>
          let meta := (filename, s.brightnessunit)
          if s.wcs.naxis = 3 then
            let d := A.orient s.casaShape.reverse s.wcs
            let v := A.orient s.casaShape.reverse s.wcs
            let cube := SpectralCube.mk d.1 d.2 (BooleanArrayMask.mk v.1 d.2)
              meta bi
            if cube.mask.shape = cube.shape then .ok (.single cube)
            else .error (.assertionError bareAssertMsg)
          else if s.wcs.naxis = 4 then
            let vsplit := A.splitStokes s.casaShape.reverse s.wcs
            let dsplit := A.splitStokes s.casaShape.reverse s.wcs
            match exceptMapList
                (mkComponent A dsplit.1 vsplit.1 dsplit.2 meta bi)
                (dsplit.1.map Prod.fst) with
            | .error e => .error e
            | .ok comps =>
                let container := StokesSpectralCube.mk comps
                match assocFind stokesI comps with
                | none => .error (.otherError noIMsg)
                | some cubeI =>
                    if some cubeI.mask.shape = container.cshape then
                      if some cubeI.mask.wcs = container.cwcs then
                        .ok (.stokes container)
                      else .error (.assertionError bareAssertMsg)
                    else .error (.assertionError bareAssertMsg)
          else .error (.valueError (naxisErrMsg s.wcs.naxis))

/-- The begin mapping exactly as the spec words it: start if set else
-1; an integer entry unchanged. -/
def blcSpec : PySel → Int
  | .idx i => i
  | .slc st _ _ => st.getD (-1)

/-- The end mapping exactly as the spec words it: stop - 1 if set else
-1; an integer entry unchanged. -/
def trcSpec : PySel → Int
  | .idx i => i
  | .slc _ sp _ =>
      match sp with
      | none => -1
      | some t => t - 1

/-- The stride mapping exactly as the spec words it: step if set else 1;
1 for an integer entry. -/
def incSpec : PySel → Int
  | .idx _ => 1
  | .slc _ _ st => st.getD 1

/-- The begin mapping as amended: start if set and nonzero else -1 (a
zero start is truthiness-mapped to the sentinel). -/
def blcSpecAmended : PySel → Int
  | .idx i => i
  | .slc st _ _ => if st = some 0 then -1 else st.getD (-1)

/-- The stride mapping as amended: step if set and nonzero else 1 (a
zero step is truthiness-mapped to 1). -/
def incSpecAmended : PySel → Int
  | .idx _ => 1
  | .slc _ _ st => if st = some 0 then 1 else st.getD 1

/-! Concrete fixtures used by the witnesses. -/

/-- Unit string fixture. -/
def arcsecU : String := "arcsec"

/-- Unit string fixture. -/
def degU : String := "deg"

/-- Brightness unit fixture. -/
def jyU : String := "Jy/beam"

/-- Pixel type fixture. -/
def floatT : String := "float"

/-- File name fixture. -/
def fnW : String := "test.image"

/-- All-zero pixel contents fixture. -/
def zeroPix : List Nat → Int := fun _ => 0

/-- Beam triple fixture. -/
def bpW : BeamPoint :=
  BeamPoint.mk (Quant.mk 3 arcsecU) (Quant.mk 2 arcsecU) (Quant.mk 45 degU)

/-- One-polarization channel entry fixture. -/
def chW (k : Int) : List BeamPoint :=
  [BeamPoint.mk (Quant.mk k arcsecU) (Quant.mk k arcsecU) (Quant.mk k degU)]

/-- Three-channel beams table fixture. -/
def tableW : List (List BeamPoint) := [chW 1, chW 2, chW 3]

/-- Scalar beam record fixture. -/
def brScalarW : BeamRecord := BeamRecord.mk (some bpW) none 1 1

/-- Well-formed table beam record fixture: one polarization, three
channels. -/
def brTableW : BeamRecord := BeamRecord.mk none (some tableW) 1 3

/-- Table beam record fixture with two polarizations. -/
def brTableBadStokesW : BeamRecord := BeamRecord.mk none (some tableW) 2 3

/-- Table beam record fixture with a channel-count mismatch. -/
def brTableBadCountW : BeamRecord := BeamRecord.mk none (some tableW) 1 4

/-- Beam record fixture with both a scalar triple and a table, the table
inconsistent on both counts. -/
def brBothW : BeamRecord := BeamRecord.mk (some bpW) (some tableW) 5 7

/-- Coordinate system fixtures. -/
def wcs2W : Wcs := Wcs.mk 2 0

/-- Coordinate system fixtures. -/
def wcs3W : Wcs := Wcs.mk 3 0

/-- Coordinate system fixtures. -/
def wcs4W : Wcs := Wcs.mk 4 0

/-- A healthy 3-axis service fixture. -/
def svc3W : CasaService :=
  CasaService.mk none [4, 5, 6] floatT zeroPix zeroPix wcs3W jyU brScalarW

/-- A healthy 4-axis service fixture. -/
def svc4W : CasaService :=
  CasaService.mk none [2, 4, 5, 6] floatT zeroPix zeroPix wcs4W jyU brScalarW

/-- A 2-axis service fixture. -/
def svc2W : CasaService :=
  CasaService.mk none [5, 6] floatT zeroPix zeroPix wcs2W jyU brScalarW

/-- An open failure message carrying the path-missing marker. -/
def cReqFullMsgW : String := "Exception: test.image must be of cReqPath type"

/-- A service fixture whose open fails with the path-missing
assertion. -/
def svcFailW : CasaService :=
  CasaService.mk (some (PyErr.assertionError cReqFullMsgW)) [4, 5, 6] floatT
    zeroPix zeroPix wcs3W jyU brScalarW

/-- An assembler fixture: orientation is the identity, the polarization
split yields a single primary component of the first three extents. -/
def assemblerW : Assembler :=
  Assembler.mk (fun sh w => (sh, w)) (fun sh w => ([(stokesI, sh.take 3)], w))

/-- The component cube the 4-axis fixture assembles. -/
def cube4W : SpectralCube :=
  SpectralCube.mk [6, 5, 4] wcs4W (BooleanArrayMask.mk [6, 5, 4] wcs4W)
    (fnW, jyU) (BeamInfo.scalarBeam bpW)

/-- The container the 4-axis fixture assembles. -/
def resW : LoadResult := LoadResult.stokes (StokesSpectralCube.mk [(stokesI, cube4W)])

/-- Backing array fixture in external axis order. -/
def aW : MArr := MArr.mk [4, 5, 6] zeroPix

/-- Selection fixture: a length-1 slice, an integer, a full slice, in
conventional axis order. -/
def selW : List PySel :=
  [PySel.slc (some 2) (some 3) none, PySel.idx 1, PySel.slc none none none]

/-- The adapter state the 3-axis fixture construction ends in: every
metadata slot cached. -/
def aInitW : AdapterState :=
  AdapterState.mk fnW false (some [6, 5, 4]) (some 3) (some floatT)

/-- The service trace of the fixture construction: one session wrapping
the two metadata queries. -/
def trW : List SvcOp :=
  [SvcOp.openOp, SvcOp.shapeQ, SvcOp.pixeltypeQ, SvcOp.closeOp]

/-- A later state of the backing file, with a different shape, to show
cached metadata is not recomputed. -/
def svcChangedW : CasaService :=
  CasaService.mk none [9, 9] floatT zeroPix zeroPix wcs3W jyU brScalarW

/-! Helper lemmas. -/

theorem keep_chunk : ∀ (ns : List Nat) (vs : List PySel), ns.length = vs.length →
    keepSlices (chunkShape ns (vs.map blcOf) (vs.map trcOf) (vs.map incOf)) vs
      = selShape ns vs := by
  intro ns
  induction ns with
  | nil =>
      intro vs h
      cases vs with
      | nil => rfl
      | cons v vs => simp at h
  | cons n ns ih =>
      intro vs h
      cases vs with
      | nil => simp at h
      | cons v vs =>
          have h' : ns.length = vs.length := by simpa using h
          simp only [List.map_cons, chunkShape, keepSlices, selShape]
          by_cases hs : v.isSlice <;> simp [hs, ih vs h']

theorem selShape_append : ∀ (ns1 : List Nat) (vs1 : List PySel)
    (ns2 : List Nat) (vs2 : List PySel), ns1.length = vs1.length →
    selShape (ns1 ++ ns2) (vs1 ++ vs2) = selShape ns1 vs1 ++ selShape ns2 vs2 := by
  intro ns1
  induction ns1 with
  | nil =>
      intro vs1 ns2 vs2 h
      cases vs1 with
      | nil => simp [selShape]
      | cons v vs => simp at h
  | cons n ns ih =>
      intro vs1 ns2 vs2 h
      cases vs1 with
      | nil => simp at h
      | cons v vs =>
          have h' : ns.length = vs.length := by simpa using h
          simp only [List.cons_append, selShape]
          by_cases hs : v.isSlice <;> simp [hs, ih vs ns2 vs2 h']

theorem selShape_reverse : ∀ (ns : List Nat) (vs : List PySel),
    ns.length = vs.length →
    (selShape ns vs).reverse = selShape ns.reverse vs.reverse := by
  intro ns
  induction ns with
  | nil =>
      intro vs h
      cases vs with
      | nil => rfl
      | cons v vs => simp at h
  | cons n ns ih =>
      intro vs h
      cases vs with
      | nil => simp at h
      | cons v vs =>
          have h' : ns.length = vs.length := by simpa using h
          have hl : ns.reverse.length = vs.reverse.length := by simp [h']
          simp only [selShape, List.reverse_cons]
          rw [selShape_append ns.reverse vs.reverse [n] [v] hl]
          by_cases hs : v.isSlice <;> simp [hs, selShape, ih vs h']

theorem exceptMapList_mem {α β : Type} (f : α → Except PyErr β) :
    ∀ (l : List α) (out : List β), exceptMapList f l = .ok out →
      ∀ b ∈ out, ∃ a ∈ l, f a = .ok b := by
  intro l
  induction l with
  | nil =>
      intro out h b hb
      simp only [exceptMapList, Except.ok.injEq] at h
      subst h
      simp at hb
  | cons a t ih =>
      intro out h b hb
      simp only [exceptMapList] at h
      cases hfa : f a with
      | error e => rw [hfa] at h; simp at h
      | ok b0 =>
          rw [hfa] at h
          cases hmt : exceptMapList f t with
          | error e => rw [hmt] at h; simp at h
          | ok bs =>
              rw [hmt] at h
              simp only [Except.ok.injEq] at h
              subst h
              rcases List.mem_cons.mp hb with hb0 | hbs
              · exact ⟨a, List.mem_cons_self a t, hb0 ▸ hfa⟩
              · obtain ⟨a', ha', hfa'⟩ := ih bs hmt b hbs
                exact ⟨a', List.mem_cons_of_mem a ha', hfa'⟩

theorem assocFind_mem {β : Type} : ∀ (l : List (String × β)) (k : String) (v : β),
    assocFind k l = some v → (k, v) ∈ l := by
  intro l
  induction l with
  | nil => intro k v h; simp [assocFind] at h
  | cons p t ih =>
      intro k v h
      simp only [assocFind] at h
      by_cases hk : p.1 = k
      · subst hk
        rw [if_pos rfl] at h
        injection h with h
        subst h
        simp [List.mem_cons]
      · rw [if_neg hk] at h
        exact List.mem_cons_of_mem p (ih k v h)

theorem optMapList_length {α β : Type} (f : α → Option β) :
    ∀ (l : List α) (out : List β), optMapList f l = some out →
      out.length = l.length := by
  intro l
  induction l with
  | nil =>
      intro out h
      simp only [optMapList, Option.some.injEq] at h
      subst h
      rfl
  | cons a t ih =>
      intro out h
      simp only [optMapList] at h
      cases hfa : f a with
      | none => rw [hfa] at h; simp at h
      | some b0 =>
          rw [hfa] at h
          cases hmt : optMapList f t with
          | none => rw [hmt] at h; simp at h
          | some bs =>
              rw [hmt] at h
              simp only [Option.some.injEq] at h
              subst h
              simp [ih bs hmt]

theorem optMapList_get {α β : Type} (f : α → Option β) :
    ∀ (l : List α) (out : List β), optMapList f l = some out →
      ∀ i : Nat, out[i]? = (l[i]?).bind f := by
  intro l
  induction l with
  | nil =>
      intro out h i
      simp only [optMapList, Option.some.injEq] at h
      subst h
      simp
  | cons a t ih =>
      intro out h i
      simp only [optMapList] at h
      cases hfa : f a with
      | none => rw [hfa] at h; simp at h
      | some b0 =>
          rw [hfa] at h
          cases hmt : optMapList f t with
          | none => rw [hmt] at h; simp at h
          | some bs =>
              rw [hmt] at h
              simp only [Option.some.injEq] at h
              subst h
              cases i with
              | zero => simp [hfa]
              | succ j => simp [ih bs hmt j]

theorem listHasPre_refl_append (xs ys : List Char) :
    listHasPre xs (xs ++ ys) = true := by
  induction xs with
  | nil => rfl
  | cons a asx ih => simp [listHasPre, ih]

theorem listHasSub_of_pre (xs hay : List Char) (h : listHasPre xs hay = true) :
    listHasSub xs hay = true := by
  cases hay with
  | nil => simpa [listHasSub] using h
  | cons c rest => simp [listHasSub, h]

theorem listHasSub_append (pre xs suf : List Char) :
    listHasSub xs (pre ++ (xs ++ suf)) = true := by
  induction pre with
  | nil => exact listHasSub_of_pre xs (xs ++ suf) (listHasPre_refl_append xs suf)
  | cons c pre ih => simp [listHasSub, ih]

theorem pyIn_fileNotFound (fn m : String) :
    pyIn fn (fileNotFoundMsg fn m) = true := by
  have hd : (fileNotFoundMsg fn m).data
      = ("File ").data ++ (fn.data ++ ((" not found.  Error was: " ++ m)).data) := by
    simp [fileNotFoundMsg]
  unfold pyIn
  rw [hd]
  exact listHasSub_append ("File ").data fn.data ((" not found.  Error was: " ++ m)).data

/-! Claim theorems. -/

/-- C1: for every normalized selection passed to the adapter element
access, the result keeps exactly the dimensions selected by a slice
(with the selected extents, length-1 slices included) and drops exactly
the dimensions selected by a plain integer, and the axis order of the
result is the conventional one, reversed back from the axis order of the
external tool. -/
theorem getitem_keeps_slices_drops_ints (a : MArr) (sel : List PySel)
    (h : sel.length = a.shape.length) :
    (getitemData a sel).shape = selShape a.shape.reverse sel := by
  have h1 : a.shape.length = sel.reverse.length := by simp [h]
  simp only [getitemData, transposeArr, dropIdx, getchunk]
  rw [keep_chunk a.shape sel.reverse h1, selShape_reverse a.shape sel.reverse h1]
  simp

/-- C1 witness: a selection of a length-1 slice, an integer and a full
slice over a 4 by 5 by 6 backing array keeps the two slice axes, in
conventional order, and drops the integer axis. -/
theorem getitem_keeps_slices_drops_ints_witness :
    (getitemData aW selW).shape = selShape aW.shape.reverse selW ∧
      (getitemData aW selW).shape = [1, 4] :=
  ⟨getitem_keeps_slices_drops_ints aW selW (by decide), by decide⟩

/-- C2 counterexample: the claim maps a set start and a set step through
unchanged, but the source truthiness test sends a start of 0 to the
sentinel -1 and a step of 0 to 1. -/
theorem selection_triple_counterexample :
    blcOf (PySel.slc (some 0) (some 5) none)
        ≠ blcSpec (PySel.slc (some 0) (some 5) none) ∧
      incOf (PySel.slc none none (some 0))
        ≠ incSpec (PySel.slc none none (some 0)) := by
  decide

/-- C2 amended: for each dimension entry, a slice is emitted as (start
if set and nonzero else -1, stop-1 if set else -1, step if set and
nonzero else 1), and a plain integer is emitted unchanged. -/
theorem selection_triple_mapping (s : PySel) :
    blcOf s = blcSpecAmended s ∧ trcOf s = trcSpec s ∧ incOf s = incSpecAmended s := by
  cases s with
  | idx i => exact ⟨rfl, rfl, rfl⟩
  | slc a b c =>
      refine ⟨?_, ?_, ?_⟩
      · cases a with
        | none => rfl
        | some v =>
            by_cases hv : v = 0 <;> simp [blcOf, blcSpecAmended, hv]
      · cases b <;> rfl
      · cases c with
        | none => rfl
        | some v =>
            by_cases hv : v = 0 <;> simp [incOf, incSpecAmended, hv]

/-- C10: a slice start of 0 maps to the begin sentinel -1, the same as
an unset start, so slice(0, k) and slice(None, k) produce the same
begin; a slice stop of 0 maps to the end sentinel -1, the same as an
unset stop, so such a slice selects to the end of the axis (the whole
axis for an unset start) rather than an empty region. -/
theorem zero_start_stop_sentinels (b c st : Option Int) (k : Int) (n : Nat)
    (hn : 0 < n) :
    blcOf (PySel.slc (some 0) b c) = -1 ∧
      blcOf (PySel.slc none b c) = -1 ∧
      blcOf (PySel.slc (some 0) (some k) c) = blcOf (PySel.slc none (some k) c) ∧
      trcOf (PySel.slc st (some 0) c) = -1 ∧
      trcOf (PySel.slc st none c) = -1 ∧
      chunkLen n (blcOf (PySel.slc none (some 0) none))
          (trcOf (PySel.slc none (some 0) none))
          (incOf (PySel.slc none (some 0) none)) = n := by
  refine ⟨rfl, rfl, rfl, rfl, rfl, ?_⟩
  have hb : blcOf (PySel.slc none (some 0) none) = -1 := rfl
  have ht : trcOf (PySel.slc none (some 0) none) = -1 := rfl
  have hi : incOf (PySel.slc none (some 0) none) = 1 := rfl
  rw [hb, ht, hi]
  have hc : (0 : Int) < 1 ∧ (chunkStart (-1) : Int) ≤ chunkStop n (-1) := by
    constructor
    · norm_num
    · simp [chunkStart, chunkStop]
      omega
  rw [chunkLen, if_pos hc]
  simp [chunkStart, chunkStop]
  omega

/-- C10 witness: on an axis of extent 4, a zero start and a zero stop
both hit the sentinels and the zero-stop slice selects all 4 points. -/
theorem zero_start_stop_sentinels_witness :
    (0 < 4) ∧
      (blcOf (PySel.slc (some 0) (some 9) (some 2)) = -1 ∧
        blcOf (PySel.slc none (some 9) (some 2)) = -1 ∧
        blcOf (PySel.slc (some 0) (some 7) (some 2))
          = blcOf (PySel.slc none (some 7) (some 2)) ∧
        trcOf (PySel.slc (some 5) (some 0) (some 2)) = -1 ∧
        trcOf (PySel.slc (some 5) none (some 2)) = -1 ∧
        chunkLen 4 (blcOf (PySel.slc none (some 0) none))
          (trcOf (PySel.slc none (some 0) none))
          (incOf (PySel.slc none (some 0) none)) = 4) :=
  ⟨by decide, zero_start_stop_sentinels (some 9) (some 2) (some 5) 7 4 (by decide)⟩

/-- C5: on a beam record with a per-channel table and no scalar triple,
normalization fails with a not-implemented error when more than one
polarization is present, fails with an assertion failure when the
reported channel count differs from the table length, and otherwise
raises neither failure. -/
theorem beam_table_checks (r : BeamRecord) (t : List (List BeamPoint))
    (h1 : r.scalar = none) (h2 : r.beams = some t) :
    (1 < r.nStokes → normalizeBeam r = .error .notImplementedError) ∧
      (¬ 1 < r.nStokes → (t.length : Int) ≠ r.nChannels →
        normalizeBeam r = .error (.assertionError bareAssertMsg)) ∧
      (¬ 1 < r.nStokes → (t.length : Int) = r.nChannels →
        normalizeBeam r ≠ .error .notImplementedError ∧
          ∀ m, normalizeBeam r ≠ .error (.assertionError m)) := by
  unfold normalizeBeam
  rw [h1, h2]
  refine ⟨?_, ?_, ?_⟩
  · intro hst
    simp [hst]
  · intro hst hne
    simp [hst, hne]
  · intro hst heq
    cases hm : optMapList stokes0 t <;> simp [hst, heq, hm]

/-- C5 witness: the fixture table with two polarizations fails with the
not-implemented error, the fixture with a channel-count mismatch fails
with the assertion failure, and the well-formed fixture raises
neither. -/
theorem beam_table_checks_witness :
    normalizeBeam brTableBadStokesW = .error .notImplementedError ∧
      normalizeBeam brTableBadCountW = .error (.assertionError bareAssertMsg) ∧
      (normalizeBeam brTableW ≠ .error .notImplementedError ∧
        ∀ m, normalizeBeam brTableW ≠ .error (.assertionError m)) :=
  ⟨(beam_table_checks brTableBadStokesW tableW rfl rfl).1 (by decide),
   (beam_table_checks brTableBadCountW tableW rfl rfl).2.1 (by decide) (by decide),
   (beam_table_checks brTableW tableW rfl rfl).2.2 (by decide) (by decide)⟩

/-- C6: a per-channel table with one polarization and matching channel
count normalizes to an ordered beam sequence with one entry per channel,
each entry being the table entry of that channel at polarization index
0, in unchanged channel order. -/
theorem beam_table_normalization (r : BeamRecord) (t : List (List BeamPoint))
    (bs : List BeamPoint) (h1 : r.scalar = none) (h2 : r.beams = some t)
    (h3 : ¬ 1 < r.nStokes) (h4 : (t.length : Int) = r.nChannels)
    (h5 : optMapList stokes0 t = some bs) :
    normalizeBeam r = .ok (.varyingBeams bs) ∧
      (bs.length : Int) = r.nChannels ∧
      ∀ i : Nat, bs[i]? = (t[i]?).bind stokes0 := by
  refine ⟨?_, ?_, optMapList_get stokes0 t bs h5⟩
  · unfold normalizeBeam
    rw [h1, h2]
    simp [h3, h4, h5]
  · rw [optMapList_length stokes0 t bs h5]
    exact h4

/-- C6 witness: the well-formed three-channel fixture yields the
three-element sequence of the per-channel triples at polarization index
0, in order. -/
theorem beam_table_normalization_witness :
    normalizeBeam brTableW
        = .ok (.varyingBeams [(chW 1)[0], (chW 2)[0], (chW 3)[0]]) ∧
      (([(chW 1)[0], (chW 2)[0], (chW 3)[0]] : List BeamPoint).length : Int)
        = brTableW.nChannels ∧
      ∀ i : Nat, ([(chW 1)[0], (chW 2)[0], (chW 3)[0]] : List BeamPoint)[i]?
        = (tableW[i]?).bind stokes0 :=
  beam_table_normalization brTableW tableW
    [(chW 1)[0], (chW 2)[0], (chW 3)[0]] rfl rfl (by decide) (by decide) (by decide)

/-- C9: a beam record carrying a scalar major entry always takes the
scalar branch: a single scalar beam is produced whatever per-channel
table, polarization count or channel count the record also carries, so
the table checks are never reached. -/
theorem scalar_beam_priority (r : BeamRecord) (b : BeamPoint)
    (h : r.scalar = some b) :
    normalizeBeam r = .ok (.scalarBeam b) := by
  unfold normalizeBeam
  rw [h]

/-- C9 witness: a record with a scalar triple and also a table with five
polarizations and a wrong channel count still yields the scalar beam
with no failure. -/
theorem scalar_beam_priority_witness :
    brBothW.beams = some tableW ∧ 1 < brBothW.nStokes ∧
      (tableW.length : Int) ≠ brBothW.nChannels ∧
      normalizeBeam brBothW = .ok (.scalarBeam bpW) :=
  ⟨rfl, by decide, by decide, scalar_beam_priority brBothW bpW rfl⟩

/-- C4: when the coordinate system reports an axis count other than 3
or 4, the load never returns a cube, and when it reaches the axis-count
branch (open succeeded and the beam record normalized) it fails with the
descriptive dimension error. -/
theorem load_unsupported_naxis (A : Assembler) (s : CasaService) (fn : String)
    (h3 : s.wcs.naxis ≠ 3) (h4 : s.wcs.naxis ≠ 4) :
    (∀ r, load A s fn ≠ .ok r) ∧
      (∀ bi, s.openOutcome = none → normalizeBeam s.beamRecord = .ok bi →
        load A s fn = .error (.valueError (naxisErrMsg s.wcs.naxis))) := by
  constructor
  · intro r hr
    unfold load at hr
    cases ho : translateOpen fn s.openOutcome with
    | some e => rw [ho] at hr; simp at hr
    | none =>
        rw [ho] at hr
        cases hb : normalizeBeam s.beamRecord with
        | error e => rw [hb] at hr; simp at hr
        | ok bi => rw [hb] at hr; simp [h3, h4] at hr
  · intro bi ho hb
    unfold load
    rw [ho]
    simp only [translateOpen]
    rw [hb]
    simp [h3, h4]

/-- C4 witness: a 2-axis fixture fails with the dimension error naming
its axis count, and in particular is never a cube. -/
theorem load_unsupported_naxis_witness :
    (svc2W.wcs.naxis ≠ 3 ∧ svc2W.wcs.naxis ≠ 4 ∧ svc2W.openOutcome = none ∧
        normalizeBeam svc2W.beamRecord = .ok (.scalarBeam bpW)) ∧
      load assemblerW svc2W fnW = .error (.valueError (naxisErrMsg 2)) :=
  ⟨⟨by decide, by decide, rfl, rfl⟩,
   (load_unsupported_naxis assemblerW svc2W fnW (by decide) (by decide)).2
     (.scalarBeam bpW) rfl rfl⟩

/-- C7: at each of the three open sites (adapter construction, element
access, load), an open failing with the assertion carrying the
path-missing marker is translated to an IOError whose message names the
file, and any other open failure is re-raised unchanged. -/
theorem open_failure_translation (fn : String) (gm : Bool) (s : CasaService)
    (a : AdapterState) (A : Assembler) (sel : List PySel) :
    (∀ m, s.openOutcome = some (.assertionError m) → pyIn cReqPathMsg m = true →
      adapterInit fn gm s = .error (.ioError (fileNotFoundMsg fn m)) ∧
        getitemFull a s sel = .error (.ioError (fileNotFoundMsg a.filename m)) ∧
        load A s fn = .error (.ioError (fileNotFoundMsg fn m)) ∧
        pyIn fn (fileNotFoundMsg fn m) = true) ∧
      (∀ e, s.openOutcome = some e → isPathMissingSignal e = false →
        adapterInit fn gm s = .error e ∧ getitemFull a s sel = .error e ∧
          load A s fn = .error e) := by
  constructor
  · intro m ho hm
    refine ⟨?_, ?_, ?_, pyIn_fileNotFound fn m⟩ <;>
      simp [adapterInit, getitemFull, load, translateOpen, ho, hm]
  · intro e ho he
    have ht : ∀ fn2 : String, translateOpen fn2 s.openOutcome = some e := by
      intro fn2
      rw [ho]
      cases e with
      | assertionError m =>
          simp only [isPathMissingSignal] at he
          simp [translateOpen, he]
      | ioError m => rfl
      | notImplementedError => rfl
      | valueError m => rfl
      | keyError => rfl
      | otherError m => rfl
    refine ⟨?_, ?_, ?_⟩
    · unfold adapterInit
      rw [ht fn]
    · unfold getitemFull
      rw [ht a.filename]
    · unfold load
      rw [ht fn]

/-- C7 witness: the fixture whose open raises the path-missing assertion
is translated at all three sites to the file-not-found IOError whose
message contains the file name, and a fixture whose open raises an
unrelated RuntimeError propagates it unchanged at all three sites. -/
theorem open_failure_translation_witness :
    (adapterInit fnW false svcFailW
        = .error (.ioError (fileNotFoundMsg fnW cReqFullMsgW)) ∧
      getitemFull (AdapterState.mk fnW false none none none) svcFailW selW
        = .error (.ioError (fileNotFoundMsg fnW cReqFullMsgW)) ∧
      load assemblerW svcFailW fnW
        = .error (.ioError (fileNotFoundMsg fnW cReqFullMsgW)) ∧
      pyIn fnW (fileNotFoundMsg fnW cReqFullMsgW) = true) ∧
      (adapterInit fnW false
          (CasaService.mk (some (PyErr.otherError degU)) [4, 5, 6] floatT
            zeroPix zeroPix wcs3W jyU brScalarW)
        = .error (.otherError degU)) :=
  ⟨(open_failure_translation fnW false svcFailW
      (AdapterState.mk fnW false none none none) assemblerW selW).1
      cReqFullMsgW rfl (by decide),
   ((open_failure_translation fnW false
      (CasaService.mk (some (PyErr.otherError degU)) [4, 5, 6] floatT
        zeroPix zeroPix wcs3W jyU brScalarW)
      (AdapterState.mk fnW false none none none) assemblerW selW).2
      (PyErr.otherError degU) rfl (by decide)).1⟩

/-- C8: construction computes shape, ndim and dtype inside a single
open-then-close session (the trace is exactly open, shape query,
pixeltype query, close), caches them, the cached shape being the reverse
of the shape reported by the external tool, and every later property
access returns the cached values with no service call, whatever the
current state of the backing file. -/
theorem adapter_metadata_cached (fn : String) (gm : Bool) (s : CasaService)
    (a : AdapterState) (tr : List SvcOp)
    (h : adapterInit fn gm s = .ok (a, tr)) :
    a.shapeCache = some s.casaShape.reverse ∧
      a.ndimCache = some s.casaShape.reverse.length ∧
      a.dtypeCache = some s.pixeltype ∧
      tr = [SvcOp.openOp, SvcOp.shapeQ, SvcOp.pixeltypeQ, SvcOp.closeOp] ∧
      ∀ cur : CasaService,
        shapeProp a cur = (s.casaShape.reverse, a, ([] : List SvcOp)) ∧
          ndimProp a cur = (s.casaShape.reverse.length, a, ([] : List SvcOp)) ∧
          dtypeProp a cur = (s.pixeltype, a, ([] : List SvcOp)) := by
  unfold adapterInit at h
  cases ho : translateOpen fn s.openOutcome with
  | some e => rw [ho] at h; simp at h
  | none =>
      rw [ho] at h
      simp only [shapeProp, ndimProp, dtypeProp, Except.ok.injEq,
        Prod.mk.injEq] at h
      obtain ⟨ha, htr⟩ := h
      subst ha
      subst htr
      refine ⟨rfl, rfl, rfl, rfl, ?_⟩
      intro cur
      exact ⟨rfl, rfl, rfl⟩

/-- C8 witness: the 3-axis fixture constructs with the single-session
trace and caches shape [6, 5, 4] (reverse of the reported [4, 5, 6]);
reading the properties afterwards against a changed backing file still
returns the construction-time values with no service call. -/
theorem adapter_metadata_cached_witness :
    adapterInit fnW false svc3W = .ok (aInitW, trW) ∧
      shapeProp aInitW svcChangedW
        = (svc3W.casaShape.reverse, aInitW, ([] : List SvcOp)) ∧
      ndimProp aInitW svcChangedW
        = (svc3W.casaShape.reverse.length, aInitW, ([] : List SvcOp)) ∧
      dtypeProp aInitW svcChangedW
        = (svc3W.pixeltype, aInitW, ([] : List SvcOp)) :=
  ⟨rfl,
   ((adapter_metadata_cached fnW false svc3W aInitW trW rfl).2.2.2.2
     svcChangedW).1,
   ((adapter_metadata_cached fnW false svc3W aInitW trW rfl).2.2.2.2
     svcChangedW).2.1,
   ((adapter_metadata_cached fnW false svc3W aInitW trW rfl).2.2.2.2
     svcChangedW).2.2⟩

/-- C3: every cube a successful load assembles has mask shape equal to
its data shape, and in the multi-component (4-axis) case every
component's mask coordinate system equals that component's own
coordinate system, the primary component also having mask shape equal to
its data shape and mask coordinate system equal to the container's
coordinate system. -/
theorem load_mask_invariants (A : Assembler) (s : CasaService) (fn : String)
    (r : LoadResult) (h : load A s fn = .ok r) :
    (∀ c, r = .single c → c.mask.shape = c.shape) ∧
      (∀ sc, r = .stokes sc →
        (∀ p ∈ sc.components,
          p.2.mask.shape = p.2.shape ∧ p.2.mask.wcs = p.2.wcs) ∧
          ∀ cI, assocFind stokesI sc.components = some cI →
            cI.mask.shape = cI.shape ∧ some cI.mask.wcs = sc.cwcs) := by
  unfold load at h
  cases ho : translateOpen fn s.openOutcome with
  | some e => rw [ho] at h; simp at h
  | none =>
      rw [ho] at h
      cases hb : normalizeBeam s.beamRecord with
      | error e => rw [hb] at h; simp at h
      | ok bi =>
          rw [hb] at h
          simp only [] at h
          split at h
          case isTrue h3 =>
            split at h
            case isFalse hcnd => simp at h
            case isTrue hcnd =>
            simp only [Except.ok.injEq] at h
            subst h
            constructor
            · intro c hc
              injection hc with hc
              subst hc
              rfl
            · intro sc hsc
              simp at hsc
          case isFalse h3 =>
            split at h
            case isFalse h4 => simp at h
            case isTrue h4 =>
              split at h
              case h_1 e hm => simp at h
              case h_2 comps hm =>
                split at h
                case h_1 hI => simp at h
                case h_2 cubeI hI =>
                  split at h
                  case isFalse c1 => simp at h
                  case isTrue c1 =>
                    split at h
                    case isFalse c2 => simp at h
                    case isTrue c2 =>
                      simp only [Except.ok.injEq] at h
                      subst h
                      have hcomp : ∀ p ∈ comps,
                          p.2.mask.shape = p.2.shape ∧
                            p.2.mask.wcs = p.2.wcs := by
                        intro p hp
                        obtain ⟨lab, hlab, hok⟩ :=
                          exceptMapList_mem _ _ _ hm p hp
                        unfold mkComponent at hok
                        cases hl : assocFind lab
                            (A.splitStokes s.casaShape.reverse s.wcs).1 with
                        | none => rw [hl] at hok; simp at hok
                        | some dsh =>
                            rw [hl] at hok
                            simp only [Except.ok.injEq] at hok
                            subst hok
                            exact ⟨rfl, rfl⟩
                      constructor
                      · intro c hc
                        simp at hc
                      · intro sc hsc
                        injection hsc with hsc
                        subst hsc
                        refine ⟨hcomp, ?_⟩
                        intro cI hcI
                        have hmem := assocFind_mem comps stokesI cI hcI
                        refine ⟨(hcomp _ hmem).1, ?_⟩
                        have hci : cubeI = cI := by
                          rw [hcI] at hI
                          injection hI with h2
                          exact h2.symm
                        rw [← hci]
                        exact c2

/-- C3 witness: the 4-axis fixture loads into a one-component container
whose primary component has mask shape equal to its data shape and mask
coordinate system equal to the container's coordinate system. -/
theorem load_mask_invariants_witness :
    load assemblerW svc4W fnW = .ok resW ∧
      (cube4W.mask.shape = cube4W.shape ∧
        some cube4W.mask.wcs
          = (StokesSpectralCube.mk [(stokesI, cube4W)]).cwcs) :=
  ⟨rfl,
   ((load_mask_invariants assemblerW svc4W fnW resW rfl).2
      (StokesSpectralCube.mk [(stokesI, cube4W)]) rfl).2 cube4W rfl⟩

end CasaImage
